import Mathlib

/-!
Shallow embedding of the cognito-go AWS Cognito JWT verifier.

The embedding covers:
* the JWK to RSA public key builder (`parsePEM`), the key-set resolution loop
  (`getPublicKeys`), and the two constructors (`NewCognitoClient`, `NewCognito`)
  from cognito.go;
* the bearer-token extraction helper (`tokenFromAuthHeader`) from middleware.go;
* the parts of the dgrijalva/jwt-go v3.2.0 library that `VerifyToken` calls into
  (`jwt.Parse` with a key function, `MapClaims.VerifyAudience`,
  `MapClaims.VerifyExpiresAt`, `MapClaims.VerifyIssuer`, `MapClaims.Valid`),
  since the behaviour of `VerifyToken` is determined by them.

HTTP transport, JSON decoding of wire bytes and RSA signature arithmetic are
abstracted: the fetched JWKS body appears as an already decoded list of key
records, a wire token carries its dot-separated segment list together with the
(possibly failing) decode results of its header and claims segments, and the
cryptographic RSA-SHA256 check is a Boolean oracle parameter quantified over in
every theorem.
-/

deriving instance DecidableEq for Except

namespace CognitoGo

/-- JSON-like values as they appear in decoded JWT headers and claim sets.
`str` and `num` are the shapes the claim checks distinguish (Go type
assertions to `string`, and the `float64` / `json.Number` cases of the numeric
claim switch); `boolean` stands for any other JSON value, which every check
treats alike (the type assertion or switch falls through). -/
inductive JVal where
  | str : String → JVal
  | num : Int → JVal
  | boolean : Bool → JVal
deriving DecidableEq

/-- A decoded JSON object (JWT header or claim set), as a key-value list. -/
abbrev JMap := List (String × JVal)

/-- Lookup in a decoded JSON object, mirroring a Go map index expression. -/
def jlookup : JMap → String → Option JVal
  | [], _ => none
  | (k, v) :: rest, key => if k = key then some v else jlookup rest key

/-- Embeds the Go idiom `s, _ := m[k].(string)`: the string value of the entry,
or the empty string when the entry is absent or not a string. -/
def mapGetString (m : JMap) (k : String) : String :=
  match jlookup m k with
  | some (.str s) => s
  | _ => ""

/-- jwt-go v3.2.0 `verifyAud`: an empty value passes when the claim is not
required, otherwise the value must equal the expected audience byte for byte
(`subtle.ConstantTimeCompare`). -/
def verifyAud (aud cmp : String) (required : Bool) : Bool :=
  if aud = "" then !required
  else if aud = cmp then true else false

/-- jwt-go v3.2.0 `verifyExp`: a zero value passes only when not required,
otherwise the check is `now <= exp`. -/
def verifyExp (exp now : Int) (required : Bool) : Bool :=
  if exp = 0 then !required
  else decide (now ≤ exp)

/-- jwt-go v3.2.0 `verifyIat`: a zero value passes only when not required,
otherwise the check is `now >= iat`. -/
def verifyIat (iat now : Int) (required : Bool) : Bool :=
  if iat = 0 then !required
  else decide (now ≥ iat)

/-- jwt-go v3.2.0 `verifyIss`: same shape as `verifyAud`. -/
def verifyIss (iss cmp : String) (required : Bool) : Bool :=
  if iss = "" then !required
  else if iss = cmp then true else false

/-- jwt-go v3.2.0 `verifyNbf`: a zero value passes only when not required,
otherwise the check is `now >= nbf`. -/
def verifyNbf (nbf now : Int) (required : Bool) : Bool :=
  if nbf = 0 then !required
  else decide (now ≥ nbf)

/-- jwt-go v3.2.0 `MapClaims.VerifyAudience`:
`aud, _ := m["aud"].(string); return verifyAud(aud, cmp, req)`. -/
def VerifyAudience (m : JMap) (cmp : String) (req : Bool) : Bool :=
  verifyAud (mapGetString m "aud") cmp req

/-- jwt-go v3.2.0 `MapClaims.VerifyExpiresAt`: a `float64` or `json.Number`
value is checked with `verifyExp`; any other shape returns `req == false`. -/
def VerifyExpiresAt (m : JMap) (cmp : Int) (req : Bool) : Bool :=
  match jlookup m "exp" with
  | some (.num e) => verifyExp e cmp req
  | _ => !req

/-- jwt-go v3.2.0 `MapClaims.VerifyIssuedAt`, same shape as `VerifyExpiresAt`. -/
def VerifyIssuedAt (m : JMap) (cmp : Int) (req : Bool) : Bool :=
  match jlookup m "iat" with
  | some (.num i) => verifyIat i cmp req
  | _ => !req

/-- jwt-go v3.2.0 `MapClaims.VerifyIssuer`:
`iss, _ := m["iss"].(string); return verifyIss(iss, cmp, req)`. -/
def VerifyIssuer (m : JMap) (cmp : String) (req : Bool) : Bool :=
  verifyIss (mapGetString m "iss") cmp req

/-- jwt-go v3.2.0 `MapClaims.VerifyNotBefore`, same shape as `VerifyExpiresAt`. -/
def VerifyNotBefore (m : JMap) (cmp : Int) (req : Bool) : Bool :=
  match jlookup m "nbf" with
  | some (.num n) => verifyNbf n cmp req
  | _ => !req

/-- The inner errors `MapClaims.Valid` can report. -/
inductive ClaimsVErr where
  | expired       -- "Token is expired"
  | beforeIssued  -- "Token used before issued"
  | notYetValid   -- "Token is not valid yet"
deriving DecidableEq

/-- jwt-go v3.2.0 `MapClaims.Valid`, evaluated at time `now`: checks exp, iat
and nbf with `required = false`; when several fail, the inner error of the last
failing check is the one reported (each failing branch overwrites `vErr.Inner`,
in the order exp, iat, nbf). Returns `none` when all three pass. -/
def mapClaimsValid (m : JMap) (now : Int) : Option ClaimsVErr :=
  if !(VerifyNotBefore m now false) then some .notYetValid
  else if !(VerifyIssuedAt m now false) then some .beforeIssued
  else if !(VerifyExpiresAt m now false) then some .expired
  else none

/-- One raw JWK record as decoded from the JWKS document
(struct `PublicKey` in cognito.go, without the derived PEM field). -/
structure PublicKey where
  alg : String
  e : String
  kid : String
  kty : String
  n : String
  use : String
deriving DecidableEq

/-- An RSA public key (`rsa.PublicKey`): modulus as an unsigned big integer
(`big.Int SetBytes` of the decoded modulus, big-endian), small exponent. -/
structure RSAPublicKey where
  n : Nat
  e : Nat
deriving DecidableEq

/-- Six-bit value of one base64url alphabet character, `none` outside the
alphabet (Go `encoding/base64` URL alphabet: A-Z, a-z, 0-9, -, _). -/
def b64urlVal (c : Char) : Option Nat :=
  if 'A' ≤ c ∧ c ≤ 'Z' then some (c.toNat - 65)
  else if 'a' ≤ c ∧ c ≤ 'z' then some (c.toNat - 97 + 26)
  else if '0' ≤ c ∧ c ≤ '9' then some (c.toNat - 48 + 52)
  else if c = '-' then some 62
  else if c = '_' then some 63
  else none

/-- Regroup a list of six-bit values into bytes, four values to three bytes,
with the unpadded tail handling of Go raw encodings: a leftover of one value is
a corrupt input, leftovers of two or three values yield one or two bytes
(surplus low bits discarded, as Go does outside strict mode). -/
def b64Regroup : List Nat → Option (List Nat)
  | [] => some []
  | [_] => none
  | [a, b] => some [a * 4 + b / 16]
  | [a, b, c] => some [a * 4 + b / 16, (b % 16) * 16 + c / 4]
  | a :: b :: c :: d :: rest =>
    match b64Regroup rest with
    | some bs => some ((a * 4 + b / 16) :: ((b % 16) * 16 + c / 4) :: ((c % 4) * 64 + d) :: bs)
    | none => none

/-- Go `base64.RawURLEncoding.DecodeString`: carriage returns and newlines are
skipped, every other character must be in the base64url alphabet, and the
value count must not be congruent to 1 mod 4; returns the decoded bytes. -/
def rawURLDecode (s : String) : Option (List Nat) :=
  let cs := s.data.filter (fun c => decide (c.toNat ≠ 13) && decide (c.toNat ≠ 10))
  match cs.mapM b64urlVal with
  | some vs => b64Regroup vs
  | none => none

/-- Big-endian unsigned integer value of a byte list (Go `big.Int SetBytes`). -/
def bytesToNat (bs : List Nat) : Nat :=
  bs.foldl (fun acc b => acc * 256 + b) 0

/-- The errors of the key-material builder, by kind. -/
inductive KeyError where
  | badKty (kty : String)      -- "KTY %s must be RSA"
  | badModulus                 -- base64 CorruptInputError from decoding N
  | badExponent (e : String)   -- "E %s is invalid"
deriving DecidableEq

/-- `parsePEM` from cognito.go: key type must be exactly "RSA"; the modulus is
decoded from unpadded base64url; the exponent string must be the literal
"AQAB" or "AAEAAQ", both meaning 65537; anything else is an error. -/
def parsePEM (k : PublicKey) : Except KeyError RSAPublicKey :=
  if k.kty ≠ "RSA" then .error (.badKty k.kty)
  else
    match rawURLDecode k.n with
    | none => .error .badModulus
    | some nbytes =>
      if k.e = "AQAB" ∨ k.e = "AAEAAQ" then .ok ⟨bytesToNat nbytes, 65537⟩
      else .error (.badExponent k.e)

/-- One entry of the resolved key set: the raw record plus its built key
(the `PEM` field assigned by the resolution loop). -/
structure StoredKey where
  key : PublicKey
  pem : RSAPublicKey
deriving DecidableEq

/-- The resolved key-id to key mapping (`PublicKeys`), as a key-value list. -/
abbrev PublicKeys := List (String × StoredKey)

/-- Lookup in the resolved key set (`c.PublicKeys[kid]`). -/
def pkLookup : PublicKeys → String → Option StoredKey
  | [], _ => none
  | (k, v) :: rest, key => if k = key then some v else pkLookup rest key

/-- Go map assignment `publicKeys[key.Kid] = key`: overwrite an existing entry
for the same key id, otherwise append. -/
def pkInsert : PublicKeys → String → StoredKey → PublicKeys
  | [], k, v => [(k, v)]
  | (k', v') :: rest, k, v =>
    if k' = k then (k, v) :: rest else (k', v') :: pkInsert rest k v

/-- The loop of `getPublicKeys` in cognito.go, over the decoded `keys` array:
each record goes through `parsePEM`; the first failure aborts with that error
and no key set; on success the record is stored under its key id. The HTTP
fetch and JSON decode that produce the input list are outside this model. -/
def buildPublicKeys : List PublicKey → PublicKeys → Except KeyError PublicKeys
  | [], acc => .ok acc
  | k :: rest, acc =>
    match parsePEM k with
    | .error e => .error e
    | .ok pem => buildPublicKeys rest (pkInsert acc k.kid ⟨k, pem⟩)

/-- `getPublicKeys` restricted to its key-building loop, started on the empty
map as in the source. -/
def getPublicKeysFromList (ks : List PublicKey) : Except KeyError PublicKeys :=
  buildPublicKeys ks []

/-- The verifier value (struct `Cognito`): client id, expected issuer string,
resolved key set. -/
structure Cognito where
  clientId : String
  iss : String
  publicKeys : PublicKeys
deriving DecidableEq

/-- Construction errors of the two constructors, by kind. -/
inductive NewError where
  | invalidParam            -- "invalid region or use pool id: ..."
  | fetch (msg : String)    -- network or JSON decode failure of the JWKS fetch
  | keyMaterial (e : KeyError)
deriving DecidableEq

/-- The identity-provider URL built by `NewCognitoClient`:
`https://cognito-idp.{region}.amazonaws.com/{usePoolId}`. -/
def cognitoIdpUrl (region usePoolId : String) : String :=
  "https://cognito-idp." ++ region ++ ".amazonaws.com/" ++ usePoolId

/-- The well-known JWKS path appended to the issuer URL. -/
def jwksSuffix : String := "/.well-known/jwks.json"

/-- `NewCognitoClient` from cognito.go: empty region or pool id fails with the
invalid-parameter error before anything else; otherwise the issuer URL is the
identity-provider URL, the JWKS document is fetched from issuer plus
`/.well-known/jwks.json` (the fetch is the oracle parameter, standing for the
HTTP GET plus JSON decode of `getPublicKeys`), the key list is built, and the
verifier stores the client id, the issuer URL and the key set. -/
def NewCognitoClient (region usePoolId clientId : String)
    (fetch : String → Except String (List PublicKey)) : Except NewError Cognito :=
  if region = "" ∨ usePoolId = "" then .error .invalidParam
  else
    let iss := cognitoIdpUrl region usePoolId
    let pkUrl := iss ++ jwksSuffix
    match fetch pkUrl with
    | .error m => .error (.fetch m)
    | .ok ks =>
      match getPublicKeysFromList ks with
      | .error e => .error (.keyMaterial e)
      | .ok pks => .ok ⟨clientId, iss, pks⟩

/-- `NewCognito` from the earlier revision of cognito.go: identical validation,
but the single URL `https://cognito-idp.{region}.amazonaws.com/{usePoolId}/.well-known/jwks.json`
is both fetched from and stored as the `Iss` field of the verifier. -/
def NewCognito (region usePoolId clientId : String)
    (fetch : String → Except String (List PublicKey)) : Except NewError Cognito :=
  if region = "" ∨ usePoolId = "" then .error .invalidParam
  else
    let iss := cognitoIdpUrl region usePoolId ++ jwksSuffix
    match fetch iss with
    | .error m => .error (.fetch m)
    | .ok ks =>
      match getPublicKeysFromList ks with
      | .error e => .error (.keyMaterial e)
      | .ok pks => .ok ⟨clientId, iss, pks⟩

/-- A compact token on the wire, after the stages this model abstracts: the
dot-separated segment list of the input string, and the results of base64 plus
JSON decoding of the header and claims segments (`none` on decode failure). -/
structure WireToken where
  parts : List String
  headerJSON : Option JMap
  claimsJSON : Option JMap
deriving DecidableEq

/-- The parsed token (`jwt.Token`) as `VerifyToken` hands it to callers. -/
structure Token where
  raw : String
  header : JMap
  claims : JMap
  methodAlg : String
  signature : String
  valid : Bool
deriving DecidableEq

/-- The error kinds a `jwt.Parse` call can surface through `VerifyToken`. -/
inductive VErr where
  | malformed                            -- segment count or segment decoding
  | methodUnavailable                    -- "signing method (alg) is unavailable."
  | invalidSigningMethod (alg : String)  -- "invalid signing method %s. ..."
  | invalidKid (kid : String)            -- "invalid kid %s"
  | notValid (claimsErr : Option ClaimsVErr) (sigBad : Bool)
      -- the combined validation error of jwt-go Parse:
      -- internal claims validation and signature verification
deriving DecidableEq

/-- The signing methods registered by jwt-go v3.2.0, by algorithm name:
`GetSigningMethod` returns one of these or nil. -/
def registeredAlgs : List String :=
  ["none", "HS256", "HS384", "HS512", "RS256", "RS384", "RS512",
   "ES256", "ES384", "ES512", "PS256", "PS384", "PS512"]

/-- The method resolution of jwt-go `ParseUnverified`: the header `alg` entry
must be a string naming a registered method; the name is the value of
`token.Method.Alg()`. -/
def headerAlg (h : JMap) : Option String :=
  match jlookup h "alg" with
  | some (.str a) => if registeredAlgs.contains a then some a else none
  | _ => none

/-- The unchecked type assertion `token.Header["kid"].(string)` in `getCert`:
`some kid` when the entry is a string, `none` when the assertion would panic
(entry absent or not a string). -/
def kidAssert (h : JMap) : Option String :=
  match jlookup h "kid" with
  | some (.str s) => some s
  | _ => none

/-- Outcome of the key callback, with a constructor for the Go runtime panic
of the unchecked kid assertion. -/
inductive GetCertResult where
  | panicked
  | err (e : VErr)
  | ok (key : RSAPublicKey)
deriving DecidableEq

/-- `getCert` from cognito.go: assert the header kid to a string (panicking
when it is absent or not a string), then look it up in the key set; an unknown
kid is the "invalid kid" error, otherwise the stored RSA key is returned. -/
def getCert (c : Cognito) (header : JMap) : GetCertResult :=
  match kidAssert header with
  | none => .panicked
  | some kid =>
    match pkLookup c.publicKeys kid with
    | none => .err (.invalidKid kid)
    | some key => .ok key.pem

/-- Outcome of the embedded `jwt.Parse` call. -/
inductive ParseOutcome where
  | panicked
  | failed (e : VErr)
  | parsed (t : Token)
deriving DecidableEq

/-- The signing string, header and payload segments joined by a dot
(`strings.Join(parts[0:2], ".")`). -/
def signingString (tok : WireToken) : String :=
  tok.parts.getD 0 "" ++ "." ++ tok.parts.getD 1 ""

/-- The `jwt.Parse` call of `VerifyToken` with its key callback, jwt-go
v3.2.0 semantics: exactly three segments and decodable header and claims,
else malformed; the header algorithm must name a registered method, else
unavailable; the callback requires the method to be exactly RS256 (before any
kid handling), else the invalid-signing-method error; then `getCert` resolves
the key (possibly panicking on the kid assertion); then the internal claims
validation (`MapClaims.Valid` at `now`) and the RSA-SHA256 signature check
(the `rsaVerify` oracle) both run, and any failure of either is returned as
the combined validation error; on full success the token is marked valid. -/
def jwtParse (c : Cognito) (rsaVerify : String → String → RSAPublicKey → Bool)
    (now : Int) (tok : WireToken) : ParseOutcome :=
  if tok.parts.length ≠ 3 then .failed .malformed
  else
    match tok.headerJSON, tok.claimsJSON with
    | some header, some claims =>
      match headerAlg header with
      | none => .failed .methodUnavailable
      | some alg =>
        if alg ≠ "RS256" then .failed (.invalidSigningMethod alg)
        else
          match getCert c header with
          | .panicked => .panicked
          | .err e => .failed e
          | .ok pem =>
            let cerr := mapClaimsValid claims now
            let sigOk := rsaVerify (signingString tok) (tok.parts.getD 2 "") pem
            if sigOk = true ∧ cerr = none then
              .parsed ⟨String.intercalate "." tok.parts, header, claims, alg,
                tok.parts.getD 2 "", true⟩
            else .failed (.notValid cerr (!sigOk))
    | _, _ => .failed .malformed

/-- The errors `VerifyToken` returns. -/
inductive VTErr where
  | parse (e : VErr)   -- passed through from jwt.Parse, with a nil token
  | audienceInvalid    -- "audience is invalid"
  | tokenExpired       -- "token expired"
  | issuerInvalid      -- "iss is invalid"
deriving DecidableEq

/-- Result of `VerifyToken`, mirroring the Go pair `(*jwt.Token, error)`:
failure carries the token pointer returned next to the error (`none` is Go
nil), success carries the valid token with nil error. -/
inductive VTOut where
  | panicked
  | failure (tok : Option Token) (e : VTErr)
  | success (tok : Token)
deriving DecidableEq

/-- `VerifyToken` from cognito.go: parse and signature-verify via `jwt.Parse`
(any error there returns Go nil for the token); then the three claim checks in
order, audience (`VerifyAudience` with required false against the client id),
expiry (`VerifyExpiresAt` with required true against the current time), issuer
(`VerifyIssuer` with required true against the stored issuer); the first
failing check returns the parsed token together with its error; otherwise the
token is returned with nil error. -/
def VerifyToken (c : Cognito) (rsaVerify : String → String → RSAPublicKey → Bool)
    (now : Int) (tok : WireToken) : VTOut :=
  match jwtParse c rsaVerify now tok with
  | .panicked => .panicked
  | .failed e => .failure none (.parse e)
  | .parsed t =>
    if !(VerifyAudience t.claims c.clientId false) then .failure (some t) .audienceInvalid
    else if !(VerifyExpiresAt t.claims now true) then .failure (some t) .tokenExpired
    else if !(VerifyIssuer t.claims c.iss true) then .failure (some t) .issuerInvalid
    else .success t

/-- The first failing of the three claim checks of `VerifyToken` on a parsed
token, with the error it is reported as, `none` when all three pass. -/
def firstClaimCheckFailure (c : Cognito) (now : Int) (t : Token) : Option VTErr :=
  if !(VerifyAudience t.claims c.clientId false) then some .audienceInvalid
  else if !(VerifyExpiresAt t.claims now true) then some .tokenExpired
  else if !(VerifyIssuer t.claims c.iss true) then some .issuerInvalid
  else none

/-- Whitespace as Go `unicode.IsSpace` recognises it: the ASCII space
characters and the Unicode White_Space code points. -/
def goIsSpace (c : Char) : Bool :=
  let n := c.toNat
  (9 ≤ n && n ≤ 13) || n == 32 || n == 133 || n == 160 || n == 0x1680 ||
  (0x2000 ≤ n && n ≤ 0x200A) || n == 0x2028 || n == 0x2029 ||
  n == 0x202F || n == 0x205F || n == 0x3000

/-- Worker for `goFields`: accumulates the current field in reverse. -/
def fieldsAux : List Char → List Char → List String
  | [], [] => []
  | [], cur => [String.mk cur.reverse]
  | c :: rest, cur =>
    if goIsSpace c then
      match cur with
      | [] => fieldsAux rest []
      | _ :: _ => String.mk cur.reverse :: fieldsAux rest []
    else fieldsAux rest (c :: cur)

/-- Go `strings.Fields`: the maximal runs of non-whitespace characters. -/
def goFields (s : String) : List String :=
  fieldsAux s.data []

/-- ASCII case folding of one character. Go `strings.ToLower` folds the full
Unicode range, but no code point outside A-Z folds to any of the letters of
the literal "bearer" this result is compared against, so the ASCII folding is
equivalent for every comparison the middleware performs. -/
def goToLowerChar (c : Char) : Char :=
  if 'A' ≤ c ∧ c ≤ 'Z' then Char.ofNat (c.toNat + 32) else c

/-- `strings.ToLower`, restricted as described at `goToLowerChar`. -/
def goToLower (s : String) : String :=
  String.mk (s.data.map goToLowerChar)

/-- The two error conditions of `tokenFromAuthHeader`. -/
inductive AuthHeaderError where
  | noToken    -- "no token"
  | badFormat  -- "invalid Authorization header format"
deriving DecidableEq

/-- `tokenFromAuthHeader` from middleware.go: an empty Authorization header
value is the distinct no-token error; otherwise the value is split on
whitespace, exactly two fields are required with the first case-insensitively
equal to "bearer", else the format error; the second field is the token. -/
def tokenFromAuthHeader (authHeader : String) : Except AuthHeaderError String :=
  if authHeader = "" then .error .noToken
  else
    match goFields authHeader with
    | [a, b] => if goToLower a = "bearer" then .ok b else .error .badFormat
    | _ => .error .badFormat

/-- A key record with canonical exponent and modulus "AQAB" (decoding to the
bytes 1, 0, 1, hence modulus value 65537), used as a concrete fixture. -/
def exKey : PublicKey := ⟨"RS256", "AQAB", "k1", "RSA", "AQAB", "sig"⟩

/-- The RSA key `parsePEM` builds from `exKey`. -/
def exRSA : RSAPublicKey := ⟨65537, 65537⟩

/-- A one-entry key set holding `exKey` under kid "k1". -/
def exKeys : PublicKeys := [("k1", ⟨exKey, exRSA⟩)]

/-- A concrete verifier: client id "app1", issuer "https://issuer/pool",
key set `exKeys`. -/
def exCfg : Cognito := ⟨"app1", "https://issuer/pool", exKeys⟩

/-- A signature oracle that accepts everything, standing for tokens whose
RSA-SHA256 signature is genuinely valid under the resolved key. -/
def vfTrue : String → String → RSAPublicKey → Bool := fun _ _ _ => true

/-- A three-segment wire token with the given decoded header and claims. -/
def mkWire (hdr cl : JMap) : WireToken :=
  ⟨["h", "p", "s"], some hdr, some cl⟩

/-- A header declaring RS256 and the given kid. -/
def hdrRS (kid : String) : JMap :=
  [("alg", .str "RS256"), ("kid", .str kid)]

/-- A key record whose exponent string "AQA" is neither of the two canonical
encodings, used as a concrete malformed fixture. -/
def kBadE : PublicKey := ⟨"RS256", "AQA", "k2", "RSA", "AQAB", "sig"⟩

theorem buildPublicKeys_append_error (pre : List PublicKey) :
    ∀ (acc : PublicKeys) (k : PublicKey) (post : List PublicKey) (e : KeyError),
      (∀ k' ∈ pre, ∃ key, parsePEM k' = .ok key) → parsePEM k = .error e →
      buildPublicKeys (pre ++ k :: post) acc = .error e := by
  induction pre with
  | nil =>
    intro acc k post e _ hk
    simp [buildPublicKeys, hk]
  | cons p ps ih =>
    intro acc k post e hpre hk
    obtain ⟨key, hp⟩ := hpre p (by simp)
    simpa [buildPublicKeys, hp] using ih _ k post e (fun k' hk' => hpre k' (by simp [hk'])) hk

/-- C1 (counterexample): a structurally valid, correctly signed token (the
signature oracle accepts) whose numeric exp claim 100 is in the past of the
verification time 200 makes `VerifyToken` return a NIL token together with the
expired error, because the internal claims validation of `jwt.Parse` already
rejects it; the claim instead asserts the parsed token is returned non-nil
alongside an expiry claim error. -/
theorem C1_pastExpYieldsNilToken :
    VerifyToken exCfg vfTrue 200
      (mkWire (hdrRS "k1")
        [("aud", .str "app1"), ("exp", .num 100), ("iss", .str "https://issuer/pool")]) =
      .failure none (.parse (.notValid (some .expired) false)) := by decide

/-- C1 (amended): a token that passes the whole of `jwt.Parse` — structure,
algorithm check, key resolution, signature verification and the internal
exp/iat/nbf validation of the library — and then fails one of the three
explicit claim checks is returned non-nil together with that claim error,
while every failure inside `jwt.Parse` (including a past exp claim, rejected
by the internal validation) returns a nil token with the error. -/
theorem C1_nonNilTokenOnClaimFailure :
    (∀ c vf now tok t e, jwtParse c vf now tok = .parsed t →
        firstClaimCheckFailure c now t = some e →
        VerifyToken c vf now tok = .failure (some t) e) ∧
    (∀ c vf now tok e, jwtParse c vf now tok = .failed e →
        VerifyToken c vf now tok = .failure none (.parse e)) := by
  constructor
  · intro c vf now tok t e hp hf
    unfold VerifyToken
    rw [hp]
    unfold firstClaimCheckFailure at hf
    split_ifs at hf ⊢ <;> simp_all
  · intro c vf now tok e hp
    unfold VerifyToken
    rw [hp]

/-- C1 (witness): the amended theorem applied to a signed token whose audience
claim "other" mismatches the configured client id "app1": the parsed token is
returned non-nil together with the audience error. -/
theorem C1_nonNilTokenOnClaimFailure_witness :
    VerifyToken exCfg vfTrue 200
      (mkWire (hdrRS "k1")
        [("aud", .str "other"), ("exp", .num 300), ("iss", .str "https://issuer/pool")]) =
      .failure (some ⟨"h.p.s", hdrRS "k1",
        [("aud", .str "other"), ("exp", .num 300), ("iss", .str "https://issuer/pool")],
        "RS256", "s", true⟩) .audienceInvalid :=
  C1_nonNilTokenOnClaimFailure.1 exCfg vfTrue 200
    (mkWire (hdrRS "k1")
      [("aud", .str "other"), ("exp", .num 300), ("iss", .str "https://issuer/pool")])
    ⟨"h.p.s", hdrRS "k1",
      [("aud", .str "other"), ("exp", .num 300), ("iss", .str "https://issuer/pool")],
      "RS256", "s", true⟩
    .audienceInvalid (by decide) (by decide)

/-- C2 (code divergence, evaluated at the failing input region "r", pool "p"):
both constructors fetch the key set from
https://cognito-idp.r.amazonaws.com/p/.well-known/jwks.json, but `NewCognito`
stores that full JWKS endpoint URL as its expected issuer, while
`NewCognitoClient` stores the identity-provider URL without the path suffix as
the claim and the spec describe; `VerifyToken` compares the token iss claim
against the stored field, so the issuer check of a `NewCognito` verifier runs
against the JWKS endpoint URL. -/
theorem C2_issuerUrlStored :
    (NewCognito "r" "p" "cid" (fun u => .error u) =
      .error (.fetch "https://cognito-idp.r.amazonaws.com/p/.well-known/jwks.json")) ∧
    (NewCognitoClient "r" "p" "cid" (fun u => .error u) =
      .error (.fetch "https://cognito-idp.r.amazonaws.com/p/.well-known/jwks.json")) ∧
    (NewCognito "r" "p" "cid" (fun _ => .ok []) =
      .ok ⟨"cid", "https://cognito-idp.r.amazonaws.com/p/.well-known/jwks.json", []⟩) ∧
    (NewCognitoClient "r" "p" "cid" (fun _ => .ok []) =
      .ok ⟨"cid", "https://cognito-idp.r.amazonaws.com/p", []⟩) :=
  ⟨by decide, by decide, by decide, by decide⟩

/-- C3 (counterexample): a correctly signed token carrying NO audience claim
passes the audience check (`VerifyAudience` is called with required = false,
so an absent audience yields the empty string and passes) and, with valid exp
and iss, passes the whole verification; the claim instead asserts a token with
no audience claim does not pass the audience check. -/
theorem C3_missingAudiencePasses :
    VerifyAudience [] "app1" false = true ∧
    VerifyToken exCfg vfTrue 200
      (mkWire (hdrRS "k1") [("exp", .num 300), ("iss", .str "https://issuer/pool")]) =
      .success ⟨"h.p.s", hdrRS "k1",
        [("exp", .num 300), ("iss", .str "https://issuer/pool")], "RS256", "s", true⟩ :=
  ⟨by decide, by decide⟩

/-- C3 (amended): the audience check passes exactly when the audience claim is
absent, empty, or not a single string (all of which read back as the empty
string and pass because the check is invoked with required = false), or is
exactly string-equal — case-sensitively, with no set-membership semantics —
to the configured client identifier. -/
theorem C3_audienceCheckCharacterization (m : JMap) (cmp : String) :
    VerifyAudience m cmp false = true ↔
      mapGetString m "aud" = "" ∨ mapGetString m "aud" = cmp := by
  unfold VerifyAudience verifyAud
  by_cases h : mapGetString m "aud" = ""
  · simp [h]
  · by_cases h2 : mapGetString m "aud" = cmp <;> simp [h, h2]

/-- C4 (counterexample): the expiry check invoked by `VerifyToken` passes on a
token whose numeric exp claim equals the current time (the library comparison
is now less-or-equal exp, not strictly greater), and such a token passes the
whole verification; the claim instead asserts exp must be strictly greater
than the current time and that an equal exp fails. -/
theorem C4_expEqualNowPasses :
    VerifyExpiresAt [("exp", JVal.num 100)] 100 true = true ∧
    VerifyToken exCfg vfTrue 100
      (mkWire (hdrRS "k1")
        [("aud", .str "app1"), ("exp", .num 100), ("iss", .str "https://issuer/pool")]) =
      .success ⟨"h.p.s", hdrRS "k1",
        [("aud", .str "app1"), ("exp", .num 100), ("iss", .str "https://issuer/pool")],
        "RS256", "s", true⟩ :=
  ⟨by decide, by decide⟩

/-- C4 (amended): the expiry check of `VerifyToken` (required = true) passes
exactly when the token carries a numeric exp claim that is nonzero and
greater than or equal to the current time; a missing, non-numeric or zero exp
claim fails the check, i.e. is treated as already expired. -/
theorem C4_expiryCheckCharacterization (m : JMap) (now : Int) :
    VerifyExpiresAt m now true = true ↔
      ∃ e : Int, jlookup m "exp" = some (.num e) ∧ e ≠ 0 ∧ now ≤ e := by
  unfold VerifyExpiresAt verifyExp
  cases hm : jlookup m "exp" with
  | none => simp
  | some v =>
    cases v with
    | str s => simp
    | num e => by_cases he : e = 0 <;> by_cases hle : now ≤ e <;> simp [he, hle]
    | boolean b => simp

/-- C5 (confirmed): for every verifier configuration (in particular whatever
the key set contains), a structurally valid token whose header declares an
algorithm other than RS256 fails with a signing-method error — the
invalid-signing-method error when the name is a registered method, the
method-unavailable error otherwise — with a nil token; the result is a
constant independent of the key set, so no key-id lookup influences it. -/
theorem C5_wrongAlgFailsBeforeKidLookup (c : Cognito)
    (vf : String → String → RSAPublicKey → Bool)
    (now : Int) (tok : WireToken) (h cl : JMap) (a : String)
    (hparts : tok.parts.length = 3)
    (hh : tok.headerJSON = some h) (hc : tok.claimsJSON = some cl)
    (halg : jlookup h "alg" = some (.str a)) (hne : a ≠ "RS256") :
    VerifyToken c vf now tok =
      .failure none (.parse (if registeredAlgs.contains a
        then VErr.invalidSigningMethod a else VErr.methodUnavailable)) := by
  have hp : jwtParse c vf now tok =
      .failed (if registeredAlgs.contains a
        then VErr.invalidSigningMethod a else VErr.methodUnavailable) := by
    unfold jwtParse
    rw [hh, hc, hparts]
    have ha : headerAlg h = if registeredAlgs.contains a then some a else none := by
      unfold headerAlg
      rw [halg]
    by_cases hreg : registeredAlgs.contains a
    · rw [if_pos hreg] at ha ⊢
      simp [ha, hne]
    · rw [if_neg hreg] at ha ⊢
      simp [ha]
  unfold VerifyToken
  rw [hp]

/-- C5 (witness): the theorem applied to a token declaring HS256 whose kid is
present in the key set: the signing-method error is returned with a nil
token. -/
theorem C5_wrongAlgFailsBeforeKidLookup_witness :
    VerifyToken exCfg vfTrue 0
      (mkWire [("alg", .str "HS256"), ("kid", .str "k1")] []) =
      .failure none (.parse (.invalidSigningMethod "HS256")) := by
  rw [C5_wrongAlgFailsBeforeKidLookup exCfg vfTrue 0
    (mkWire [("alg", .str "HS256"), ("kid", .str "k1")] [])
    [("alg", .str "HS256"), ("kid", .str "k1")] [] "HS256"
    (by decide) rfl rfl (by decide) (by decide)]
  decide

/-- C6 (confirmed): key-material construction succeeds only when the exponent
string is the literal "AQAB" or the literal "AAEAAQ", and then the built key
has exponent exactly 65537; for any other exponent string `parsePEM` returns
an error (the bad-exponent error, or an earlier key-type or modulus error),
never a key — there is no general base64-to-integer decoding of exponents. -/
theorem C6_canonicalExponentOnly :
    (∀ k key, parsePEM k = .ok key →
        (k.e = "AQAB" ∨ k.e = "AAEAAQ") ∧ key.e = 65537) ∧
    (∀ k, k.e ≠ "AQAB" → k.e ≠ "AAEAAQ" → ∃ err, parsePEM k = .error err) := by
  constructor
  · intro k key hk
    unfold parsePEM at hk
    split at hk
    · cases hk
    · split at hk
      · cases hk
      · split at hk
        next h2 => cases hk; exact ⟨h2, rfl⟩
        next => cases hk
  · intro k h1 h2
    by_cases hkty : k.kty ≠ "RSA"
    · exact ⟨.badKty k.kty, by unfold parsePEM; rw [if_pos hkty]⟩
    · cases hd : rawURLDecode k.n with
      | none => exact ⟨.badModulus, by simp [parsePEM, hd, not_not.mp hkty]⟩
      | some nb => exact ⟨.badExponent k.e, by simp [parsePEM, hd, not_not.mp hkty, h1, h2]⟩

/-- C6 (witness): the theorem applied to the well-formed fixture key (built
key has exponent 65537, exponent string is canonical) and to the fixture with
exponent string "AQA" (construction errors). -/
theorem C6_canonicalExponentOnly_witness :
    ((exKey.e = "AQAB" ∨ exKey.e = "AAEAAQ") ∧ exRSA.e = 65537) ∧
    (∃ err, parsePEM kBadE = .error err) :=
  ⟨C6_canonicalExponentOnly.1 exKey exRSA (by decide),
   C6_canonicalExponentOnly.2 kBadE (by decide) (by decide)⟩

/-- C7 (confirmed): when the decoded keys array is any well-formed prefix
followed by a malformed record (one `parsePEM` rejects) and then anything at
all, key-set resolution returns exactly the error of that first failing
record and no key set — the other, valid entries notwithstanding. -/
theorem C7_firstMalformedKeyAborts (pre : List PublicKey) (k : PublicKey)
    (post : List PublicKey) (e : KeyError)
    (hpre : ∀ k' ∈ pre, ∃ key, parsePEM k' = .ok key)
    (hk : parsePEM k = .error e) :
    getPublicKeysFromList (pre ++ k :: post) = .error e :=
  buildPublicKeys_append_error pre [] k post e hpre hk

/-- C7 (witness): the theorem applied to a keys array holding a valid key, the
bad-exponent key, and another valid key: resolution returns the bad-exponent
error and no key set. -/
theorem C7_firstMalformedKeyAborts_witness :
    getPublicKeysFromList [exKey, kBadE, exKey] = .error (.badExponent "AQA") :=
  C7_firstMalformedKeyAborts [exKey] kBadE [exKey] (.badExponent "AQA")
    (by
      intro k' hk'
      rw [List.mem_singleton] at hk'
      subst hk'
      exact ⟨exRSA, by decide⟩)
    (by decide)

/-- C8 (confirmed): for every fetch behaviour whatsoever, construction with an
empty region or an empty pool identifier fails with the invalid-parameter
error in both constructors; the result is the same constant for every fetch
function, so no network fetch can have been consulted. -/
theorem C8_emptyParamFailsBeforeFetch (region usePoolId clientId : String)
    (fetch : String → Except String (List PublicKey))
    (h : region = "" ∨ usePoolId = "") :
    NewCognitoClient region usePoolId clientId fetch = .error .invalidParam ∧
    NewCognito region usePoolId clientId fetch = .error .invalidParam := by
  unfold NewCognitoClient NewCognito
  rw [if_pos h, if_pos h]
  exact ⟨rfl, rfl⟩

/-- C8 (witness): the theorem applied to an empty region with a fetch function
that would fail loudly if consulted: both constructors return the
invalid-parameter error. -/
theorem C8_emptyParamFailsBeforeFetch_witness :
    NewCognitoClient "" "p" "cid" (fun u => .error u) = .error .invalidParam ∧
    NewCognito "" "p" "cid" (fun u => .error u) = .error .invalidParam :=
  C8_emptyParamFailsBeforeFetch "" "p" "cid" (fun u => .error u) (Or.inl rfl)

/-- C9 (confirmed): bearer extraction returns a token exactly when splitting
the header value on whitespace yields exactly two fields with the first
case-insensitively equal to "bearer", and then the second field is returned;
the empty header value is the distinct no-token error; every other nonempty
shape — wrong field count, or two fields whose first does not fold to
"bearer" — is the format error. -/
theorem C9_bearerExtraction :
    (∀ s t, tokenFromAuthHeader s = .ok t ↔
        ∃ a, goFields s = [a, t] ∧ goToLower a = "bearer") ∧
    (tokenFromAuthHeader "" = .error .noToken) ∧
    (AuthHeaderError.noToken ≠ AuthHeaderError.badFormat) ∧
    (∀ s, s ≠ "" →
      (∀ a b, goFields s = [a, b] → goToLower a ≠ "bearer") →
      tokenFromAuthHeader s = .error .badFormat) := by
  refine ⟨?_, by decide, by decide, ?_⟩
  · intro s t
    constructor
    · intro h
      unfold tokenFromAuthHeader at h
      split at h
      · cases h
      · split at h
        next a b heq =>
          split at h
          next hb => cases h; exact ⟨a, heq, hb⟩
          next => cases h
        next => cases h
    · rintro ⟨a, hf, hb⟩
      by_cases hs : s = ""
      · subst hs
        rw [show goFields "" = [] from rfl] at hf
        cases hf
      · simp [tokenFromAuthHeader, hs, hf, hb]
  · intro s hs hnb
    unfold tokenFromAuthHeader
    rw [if_neg hs]
    cases hf : goFields s with
    | nil => rfl
    | cons a l =>
      cases l with
      | nil => rfl
      | cons b l2 =>
        cases l2 with
        | nil => simp [hnb a b hf]
        | cons c l3 => rfl

/-- C9 (witness): the theorem applied to the one-field header value "Bearer":
the format error, distinct from the no-token error of the empty header. -/
theorem C9_bearerExtraction_witness :
    tokenFromAuthHeader "Bearer" = .error .badFormat :=
  C9_bearerExtraction.2.2.2 "Bearer" (by decide)
    (by
      intro a b hab
      rw [show goFields "Bearer" = ["Bearer"] from by decide] at hab
      cases hab)

/-- C10 (confirmed): a structurally valid token declaring RS256 whose header
kid entry is absent or not a string drives the unchecked type assertion in
`getCert`, so the whole verification panics rather than returning any error
value, for every verifier configuration. -/
theorem C10_missingKidPanics (c : Cognito)
    (vf : String → String → RSAPublicKey → Bool)
    (now : Int) (tok : WireToken) (h cl : JMap)
    (hparts : tok.parts.length = 3) (hh : tok.headerJSON = some h)
    (hc : tok.claimsJSON = some cl)
    (halg : jlookup h "alg" = some (.str "RS256")) (hkid : kidAssert h = none) :
    VerifyToken c vf now tok = .panicked := by
  have ha : headerAlg h = some "RS256" := by
    unfold headerAlg
    rw [halg]
    decide
  have hg : getCert c h = .panicked := by
    unfold getCert
    rw [hkid]
  have hp : jwtParse c vf now tok = .panicked := by
    unfold jwtParse
    rw [hh, hc, hparts]
    simp [ha, hg]
  unfold VerifyToken
  rw [hp]

/-- C10 (witness): the theorem applied to an RS256 token with no kid header
entry at all: verification panics. -/
theorem C10_missingKidPanics_witness :
    VerifyToken exCfg vfTrue 0 (mkWire [("alg", .str "RS256")] []) = .panicked :=
  C10_missingKidPanics exCfg vfTrue 0 (mkWire [("alg", .str "RS256")] [])
    [("alg", .str "RS256")] [] (by decide) rfl rfl (by decide) (by decide)

end CognitoGo
